import Mathlib

/-!
Shallow embedding of the latency-measurement example (examples/delay.rs).

The program builds one input (capture) and one output (render) stream with
hard-coded, asserted-equal stream configurations, derives a samples-per-
millisecond constant from the sample rate, and runs two callbacks sharing a
mutex-guarded timestamp of the last impulse emission:

* the render callback (output_data_fn) writes an impulse sample 1.0 to the
  first buffer slot and resets the shared timestamp when more than one second
  has elapsed since the last emission, otherwise writes 0.0 to the first slot;
  in both cases it zeroes every remaining slot;
* the capture callback (input_data_fn) scans the buffer for the first sample
  strictly greater than 0.3 and, for that sample only, prints one latency
  figure: elapsed time since the shared timestamp plus the sample's intra-
  buffer offset converted to whole milliseconds.

Modelling conventions:
* f32 samples are modelled as rationals; the f32 literals 0.3, 1.0 and 0.0
  are modelled as the rationals 3/10, 1 and 0 (all sample values appearing in
  the claims are exactly representable, so every comparison made by the code
  agrees with its rational counterpart);
* SystemTime instants and Durations are modelled as nanosecond counts (Nat);
  the wall-clock now observed by a callback is passed as an explicit argument;
* a Rust panic (failed elapsed unwrap, out-of-bounds index, the explicit
  panic in the sample-rate match, a failed assert) is modelled as none or as
  an error value of an Except;
* the emitted latency report stream of a capture callback is modelled as the
  list of printed latency values, in nanoseconds.
-/

/-- StreamConfig as constructed in main: channel count, sample rate in Hz and
the fixed buffer size, mirroring cpal StreamConfig with BufferSize.Fixed. -/
structure StreamConfig where
  channels : Nat
  sampleRate : Nat
  bufferSize : Nat
deriving DecidableEq

/-- The two startup failure modes of the program, named as in the spec:
ConfigMismatch for the failed equality assert on the two configs,
UnsupportedSampleRate for the panicking default arm of the sample-rate match. -/
inductive ConfigError where
  | ConfigMismatch
  | UnsupportedSampleRate
deriving DecidableEq

/-- The match on input_config.sample_rate.0 deriving samples per millisecond:
48000, 32000 and 16000 map to 48, 32 and 16; every other rate hits the
panicking default arm, modelled as the UnsupportedSampleRate error. -/
def input_samples_per_ms (rate : Nat) : Except ConfigError Nat :=
  if rate = 48000 then .ok 48
  else if rate = 32000 then .ok 32
  else if rate = 16000 then .ok 16
  else .error .UnsupportedSampleRate

/-- The startup validation main performs before building any stream: the
assert that the input and output configs are equal (failure modelled as
ConfigMismatch), followed by the samples-per-millisecond derivation from the
shared sample rate (failure propagated as UnsupportedSampleRate). On success
the single shared config is returned. -/
def validate (render capture : StreamConfig) : Except ConfigError StreamConfig :=
  if render = capture then
    match input_samples_per_ms capture.sampleRate with
    | .ok _ => .ok capture
    | .error e => .error e
  else
    .error .ConfigMismatch

/-- The detection threshold: the f32 literal 0.3 compared against capture
samples, modelled as the rational 3/10. -/
def threshold : ℚ := mkRat 3 10

/-- Duration.from_secs 1, the re-arm period, in nanoseconds. -/
def rearmPeriodNs : Nat := 1000000000

/-- Duration.from_millis, in nanoseconds. -/
def msToNs (ms : Nat) : Nat := ms * 1000000

/-- Index of the first sample strictly greater than the threshold, the scan
performed by the capture callback loop (the loop keeps iterating after the
first hit, but the once-flag makes only the first hit observable). -/
def detectFirst (data : List ℚ) : Option Nat :=
  match data with
  | [] => none
  | s :: rest => if threshold < s then some 0 else (detectFirst rest).map (· + 1)

/-- The capture callback input_data_fn. Arguments: the wall-clock now at
which the callback observes the shared timestamp, the shared timestamp
lastEmission, the channel count and samples-per-millisecond constants
captured by the closure, and the capture buffer. Result: the list of latency
values printed for this buffer, in nanoseconds, or none when the callback
panics (elapsed unwrap fails because now precedes lastEmission). For the
first sample above the threshold it computes index = i / channels, then
ms = index / samples_per_ms, and prints elapsed + Duration.from_millis ms. -/
def input_data_fn (now lastEmission channels spms : Nat) (data : List ℚ) :
    Option (List Nat) :=
  match detectFirst data with
  | none => some []
  | some i =>
    if now < lastEmission then none
    else some [(now - lastEmission) + msToNs (i / channels / spms)]

/-- The render callback output_data_fn. Arguments: the wall-clock now, the
shared timestamp lastEmission, and the render buffer. Result: the buffer as
left by the callback together with the new shared timestamp, or none when the
callback panics: the elapsed unwrap fails (now precedes lastEmission), or the
slot-0 write indexes an empty buffer. When elapsed strictly exceeds the one
second period the callback writes 1.0 to slot 0 and resets the timestamp to
now; otherwise it writes 0.0 to slot 0 and leaves the timestamp unchanged;
in both branches it zeroes every remaining slot. -/
def output_data_fn (now lastEmission : Nat) (data : List ℚ) :
    Option (List ℚ × Nat) :=
  if now < lastEmission then none
  else
    match data with
    | [] => none
    | _ :: rest =>
      if rearmPeriodNs < now - lastEmission then
        some ((1 : ℚ) :: rest.map (fun _ => 0), now)
      else
        some ((0 : ℚ) :: rest.map (fun _ => 0), lastEmission)

/-- One backend callback invocation: a render or a capture callback, invoked
at wall-clock time now with its buffer. -/
inductive CbEvent where
  | render (now : Nat) (data : List ℚ)
  | capture (now : Nat) (data : List ℚ)

/-- Effect of one callback invocation on the shared last-emission timestamp:
the render callback may rewrite it, the capture callback only reads it. A
panicking callback yields none. -/
def stepClock (channels spms lastEmission : Nat) : CbEvent → Option Nat
  | .render now data => (output_data_fn now lastEmission data).map Prod.snd
  | .capture now data =>
      (input_data_fn now lastEmission channels spms data).map (fun _ => lastEmission)

/-- The shared timestamp after an arbitrary interleaving of render and
capture callback invocations, starting from the session-start value. -/
def runClock (channels spms lastEmission : Nat) : List CbEvent → Option Nat
  | [] => some lastEmission
  | e :: es =>
    match stepClock channels spms lastEmission e with
    | none => none
    | some next => runClock channels spms next es

/-- A buffer in which every sample is at or below the threshold is scanned
without a hit. -/
lemma detectFirst_eq_none_iff (data : List ℚ) :
    detectFirst data = none ↔ ∀ t ∈ data, t ≤ threshold := by
  induction data with
  | nil => simp [detectFirst]
  | cons d rest ih =>
    unfold detectFirst
    by_cases h : threshold < d
    · rw [if_pos h]
      constructor
      · intro hc; exact Option.noConfusion hc
      · intro hall
        exact absurd (hall d (List.mem_cons_self d rest)) (not_le.mpr h)
    · rw [if_neg h]
      rw [Option.map_eq_none', ih]
      constructor
      · intro hall t ht
        rcases List.mem_cons.mp ht with rfl | ht2
        · exact not_lt.mp h
        · exact hall t ht2
      · intro hall t ht
        exact hall t (List.mem_cons_of_mem d ht)

/-- The scan returns the index of the first sample above the threshold: if
the sample at index j is above it and every earlier sample is at or below
it, the scan returns j. -/
lemma detectFirst_eq_some_of_first (data : List ℚ) (j : Nat) (s : ℚ)
    (hs : data[j]? = some s) (hth : threshold < s)
    (hb : ∀ t ∈ data.take j, t ≤ threshold) :
    detectFirst data = some j := by
  induction data generalizing j with
  | nil => simp at hs
  | cons d rest ih =>
    cases j with
    | zero =>
      simp only [List.getElem?_cons_zero, Option.some.injEq] at hs
      subst hs
      unfold detectFirst
      rw [if_pos hth]
    | succ j =>
      have hd : d ≤ threshold := by
        refine hb d ?_
        rw [List.take_succ_cons]
        exact List.mem_cons_self d _
      unfold detectFirst
      rw [if_neg (not_lt.mpr hd)]
      have hs2 : rest[j]? = some s := by simpa using hs
      have hb2 : ∀ t ∈ rest.take j, t ≤ threshold := by
        intro t ht
        refine hb t ?_
        rw [List.take_succ_cons]
        exact List.mem_cons_of_mem d ht
      rw [ih j hs2 hb2]
      rfl

/-- A capture callback over a buffer with every sample at or below the
threshold prints nothing. -/
lemma input_eq_nil_of_all_le (now lastEmission channels spms : Nat)
    (data : List ℚ) (hall : ∀ s ∈ data, s ≤ threshold) :
    input_data_fn now lastEmission channels spms data = some [] := by
  unfold input_data_fn
  rw [(detectFirst_eq_none_iff data).mpr hall]

/-- Zeroing a slice is writing a replicate of zeros. -/
lemma map_const_eq_replicate (l : List ℚ) (b : ℚ) :
    l.map (fun _ => b) = List.replicate l.length b := by
  induction l with
  | nil => rfl
  | cons d t ih => simp [List.replicate_succ, ih]

/-- An impulse buffer holds exactly one sample equal to 1. -/
lemma count_one_impulse (rest : List ℚ) :
    ((1 : ℚ) :: rest.map (fun _ => 0)).count 1 = 1 := by
  rw [List.count_cons_self]
  have hz : List.count (1 : ℚ) (rest.map fun _ => 0) = 0 := by
    rw [List.count_eq_zero]
    intro hmem
    rcases List.mem_map.mp hmem with ⟨x, _, hx⟩
    exact absurd hx (by norm_num)
  rw [hz]

/-- The new shared timestamp left by a completed render callback is either
the callback time (impulse branch) or the old timestamp (silence branch),
and never precedes the old timestamp. -/
lemma output_data_fn_snd (now lastEmission : Nat) (data : List ℚ)
    (buf : List ℚ) (next : Nat)
    (h : output_data_fn now lastEmission data = some (buf, next)) :
    lastEmission ≤ next := by
  unfold output_data_fn at h
  split at h
  · exact Option.noConfusion h
  · rename_i hlt
    split at h
    · exact Option.noConfusion h
    · split at h
      · simp only [Option.some.injEq, Prod.mk.injEq] at h
        obtain ⟨h1, h2⟩ := h
        omega
      · simp only [Option.some.injEq, Prod.mk.injEq] at h
        obtain ⟨h1, h2⟩ := h
        omega


/-- Unfolding equation for the render callback on a nonempty buffer. -/
lemma output_data_fn_cons (now lastEmission : Nat) (d : ℚ) (rest : List ℚ) :
    output_data_fn now lastEmission (d :: rest) =
      if now < lastEmission then none
      else if rearmPeriodNs < now - lastEmission then
        some ((1 : ℚ) :: rest.map (fun _ => 0), now)
      else
        some ((0 : ℚ) :: rest.map (fun _ => 0), lastEmission) := by
  unfold output_data_fn
  by_cases hlt : now < lastEmission
  · rw [if_pos hlt]
  · rw [if_neg hlt]

/-- Unfolding equation for the capture callback on a buffer with no sample
above the threshold. -/
lemma input_data_fn_of_none (now lastEmission channels spms : Nat)
    (data : List ℚ) (hd : detectFirst data = none) :
    input_data_fn now lastEmission channels spms data = some [] := by
  unfold input_data_fn
  rw [hd]

/-- Unfolding equation for the capture callback on a buffer whose first
sample above the threshold sits at index i. -/
lemma input_data_fn_of_some (now lastEmission channels spms : Nat)
    (data : List ℚ) (i : Nat) (hd : detectFirst data = some i) :
    input_data_fn now lastEmission channels spms data =
      if now < lastEmission then none
      else some [(now - lastEmission) + msToNs (i / channels / spms)] := by
  unfold input_data_fn
  rw [hd]

/-- A completed callback step never moves the shared timestamp backwards:
the capture callback leaves it unchanged and the render callback either
leaves it unchanged or advances it to the callback time. -/
lemma stepClock_mono (channels spms lastEmission next : Nat) (e : CbEvent)
    (h : stepClock channels spms lastEmission e = some next) :
    lastEmission ≤ next := by
  cases e with
  | render now data =>
    simp only [stepClock] at h
    rcases ho : output_data_fn now lastEmission data with _ | p
    · rw [ho] at h
      exact Option.noConfusion h
    · rw [ho] at h
      simp only [Option.map_some'] at h
      injection h with h
      exact h ▸ output_data_fn_snd now lastEmission data p.1 p.2 (by rw [ho])
  | capture now data =>
    simp only [stepClock] at h
    rcases hi : input_data_fn now lastEmission channels spms data with _ | l
    · rw [hi] at h
      exact Option.noConfusion h
    · rw [hi] at h
      simp only [Option.map_some'] at h
      injection h with h
      exact h ▸ Nat.le_refl _

/-- The capture buffer used by the C1 counterexample: 48 frames of 2
channels, all silent except channel 0 of the last frame, which is the
0-based sample index 94, the 0-based frame index 47, the 1-based frame
index 48. -/
def latencyBufferC1 : List ℚ := List.replicate 94 0 ++ [mkRat 1 2, 0]

set_option maxRecDepth 8000 in
/-- Claim C1 counterexample: with channel count 2 and 48 samples per
millisecond, the single above-threshold sample of latencyBufferC1 sits at
1-based frame index 48, so the claim predicts offset_ms = 48 / 48 = 1 and a
reported latency of elapsed plus one millisecond; the code divides the
0-based frame index 47 by 48, obtaining offset_ms = 0, and reports exactly
the elapsed time of one second. -/
theorem detector_offset_cex :
    input_data_fn 1000000000 0 2 48 latencyBufferC1 = some [1000000000] ∧
    input_data_fn 1000000000 0 2 48 latencyBufferC1 ≠
      some [1000000000 + msToNs (48 / 48)] := by
  constructor
  · decide
  · decide

/-- Claim C1 (amended): for a capture buffer whose first above-threshold
sample sits at channel 0 of 0-based frame index F (0-based sample index
F times channel_count, every earlier sample at or below the threshold), the
detector computes frame_index = sample_index / channel_count and
offset_ms = frame_index / samples_per_ms by integer division and emits
exactly one latency report equal to elapsed (now minus last emission) plus
offset_ms milliseconds. -/
theorem detector_offset_amended (F channels spms now lastEmission : Nat)
    (data : List ℚ) (s : ℚ) (hC : 0 < channels) (hnl : lastEmission ≤ now)
    (hs : data[F * channels]? = some s) (hth : threshold < s)
    (hb : ∀ t ∈ data.take (F * channels), t ≤ threshold) :
    input_data_fn now lastEmission channels spms data =
      some [(now - lastEmission) + msToNs (F / spms)] := by
  rw [input_data_fn_of_some now lastEmission channels spms data (F * channels)
    (detectFirst_eq_some_of_first data (F * channels) s hs hth hb)]
  rw [if_neg (not_lt.mpr hnl)]
  rw [Nat.mul_div_cancel _ hC]

/-- Witness for the amended claim C1: frame index 2 at channel count 2,
sample index 4, samples_per_ms 48, elapsed 2 nanoseconds, offset 2 / 48 = 0
milliseconds. -/
theorem detector_offset_amended_witness :
    input_data_fn 5 3 2 48 [0, 0, 0, 0, mkRat 1 2, 0] = some [2] := by
  have h := detector_offset_amended 2 2 48 5 3 [0, 0, 0, 0, mkRat 1 2, 0]
    (mkRat 1 2) (by decide) (by decide) (by decide) (by decide) (by decide)
  simpa using h

/-- Claim C2 (confirmed): a completed render callback over a nonempty buffer
leaves the buffer in exactly one of two states, the impulse state with slot 0
equal to 1 and every other slot 0, or the all-zero silence state; in
particular no slot holds any value other than 0 or 1. -/
theorem scheduler_two_states (now lastEmission : Nat) (data : List ℚ)
    (hne : data ≠ []) (hnl : lastEmission ≤ now) :
    ∃ out next, output_data_fn now lastEmission data = some (out, next) ∧
      out.length = data.length ∧
      (out = (1 : ℚ) :: List.replicate (data.length - 1) 0 ∨
        out = List.replicate data.length 0) := by
  cases data with
  | nil => exact absurd rfl hne
  | cons d rest =>
    rw [output_data_fn_cons, if_neg (not_lt.mpr hnl)]
    by_cases hp : rearmPeriodNs < now - lastEmission
    · refine ⟨(1 : ℚ) :: rest.map (fun _ => 0), now, ?_, ?_, Or.inl ?_⟩
      · rw [if_pos hp]
      · simp
      · simp [map_const_eq_replicate]
    · refine ⟨(0 : ℚ) :: rest.map (fun _ => 0), lastEmission, ?_, ?_, Or.inr ?_⟩
      · rw [if_neg hp]
      · simp
      · simp [map_const_eq_replicate, List.replicate_succ]

/-- Witness for claim C2: a concrete two-slot buffer two seconds after the
last emission comes back in the impulse state. -/
theorem scheduler_two_states_witness :
    ∃ out next, output_data_fn 2000000000 0 [(5 : ℚ), 7] = some (out, next) ∧
      out.length = ([(5 : ℚ), 7] : List ℚ).length ∧
      (out = (1 : ℚ) :: List.replicate (([(5 : ℚ), 7] : List ℚ).length - 1) 0 ∨
        out = List.replicate ([(5 : ℚ), 7] : List ℚ).length 0) :=
  scheduler_two_states 2000000000 0 [(5 : ℚ), 7] (by decide) (by decide)

/-- Claim C3 counterexample: when the elapsed time equals the re-arm period
exactly (one second after the last emission) the claim predicts an impulse
and a timestamp update, but the code compares strictly and writes silence,
leaving the timestamp unchanged. -/
theorem scheduler_threshold_strict_cex :
    rearmPeriodNs ≤ rearmPeriodNs - 0 ∧
    output_data_fn rearmPeriodNs 0 [(5 : ℚ)] = some ([(0 : ℚ)], 0) ∧
    output_data_fn rearmPeriodNs 0 [(5 : ℚ)] ≠ some ([(1 : ℚ)], rearmPeriodNs) := by
  refine ⟨?_, ?_, ?_⟩
  · decide
  · decide
  · decide

/-- Claim C3 (amended): on each render callback the scheduler emits the
impulse, writing 1 to the first slot and setting the shared timestamp to
now, exactly when the elapsed time strictly exceeds the one-second re-arm
period; when elapsed is at most the period, it writes 0 to the first slot
and leaves the timestamp unchanged. -/
theorem scheduler_emit_iff (now lastEmission : Nat) (d : ℚ) (rest : List ℚ)
    (hnl : lastEmission ≤ now) :
    (rearmPeriodNs < now - lastEmission →
      output_data_fn now lastEmission (d :: rest) =
        some ((1 : ℚ) :: rest.map (fun _ => 0), now)) ∧
    (now - lastEmission ≤ rearmPeriodNs →
      output_data_fn now lastEmission (d :: rest) =
        some ((0 : ℚ) :: rest.map (fun _ => 0), lastEmission)) := by
  rw [output_data_fn_cons, if_neg (not_lt.mpr hnl)]
  constructor
  · intro h
    rw [if_pos h]
  · intro h
    rw [if_neg (not_lt.mpr h)]

/-- Witness for the amended claim C3: two seconds after the last emission a
one-slot buffer comes back holding the impulse and the timestamp advances. -/
theorem scheduler_emit_iff_witness :
    output_data_fn 2000000000 0 [(3 : ℚ)] = some ([(1 : ℚ)], 2000000000) := by
  have h := (scheduler_emit_iff 2000000000 0 3 [] (by decide)).1 (by decide)
  simpa using h

/-- Claim C4 counterexample: the sample -1/2 has magnitude 1/2, strictly
above the threshold 3/10, yet the capture callback emits zero measurements
for the buffer holding only that sample, because the code compares the
signed sample against the threshold. -/
theorem detector_sign_cex :
    threshold < mkRat 1 2 ∧
    input_data_fn 1000000000 0 2 48 [mkRat (-1) 2] = some [] := by
  refine ⟨?_, ?_⟩
  · decide
  · decide

/-- Claim C4 (amended): the detector triggers on the first sample whose
signed value strictly exceeds the 0.3 threshold; a buffer emits zero
measurements exactly when every sample is at or below 0.3, so a negative
sample, whatever its magnitude, never yields a measurement by itself. -/
theorem detector_signed_trigger (now lastEmission channels spms : Nat)
    (data : List ℚ) :
    input_data_fn now lastEmission channels spms data = some [] ↔
      ∀ s ∈ data, s ≤ threshold := by
  constructor
  · intro h
    rcases hd : detectFirst data with _ | i
    · exact (detectFirst_eq_none_iff data).mp hd
    · exfalso
      rw [input_data_fn_of_some now lastEmission channels spms data i hd] at h
      by_cases hlt : now < lastEmission
      · rw [if_pos hlt] at h
        exact Option.noConfusion h
      · rw [if_neg hlt] at h
        simp at h
  · intro hall
    exact input_eq_nil_of_all_le now lastEmission channels spms data hall

/-- Claim C5 (confirmed): for every capture buffer the callback prints at
most one latency report, and for every buffer in which no sample exceeds
3/10 in absolute value (every sample lies between -3/10 and 3/10) it prints
none. -/
theorem detector_per_buffer_guarantees (now lastEmission channels spms : Nat)
    (data : List ℚ) :
    (∀ l, input_data_fn now lastEmission channels spms data = some l →
      l.length ≤ 1) ∧
    ((∀ s ∈ data, -threshold ≤ s ∧ s ≤ threshold) →
      input_data_fn now lastEmission channels spms data = some []) := by
  constructor
  · intro l h
    rcases hd : detectFirst data with _ | i
    · rw [input_data_fn_of_none now lastEmission channels spms data hd] at h
      injection h with h
      rw [← h]
      decide
    · rw [input_data_fn_of_some now lastEmission channels spms data i hd] at h
      by_cases hlt : now < lastEmission
      · rw [if_pos hlt] at h
        exact Option.noConfusion h
      · rw [if_neg hlt] at h
        injection h with h
        rw [← h]
        simp
  · intro hall
    exact input_eq_nil_of_all_le now lastEmission channels spms data
      (fun s hs => (hall s hs).2)

/-- Witness for claim C5: a buffer whose two samples have magnitude 1/4,
below the threshold, yields the empty report list. -/
theorem detector_per_buffer_guarantees_witness :
    input_data_fn 7 2 2 48 [mkRat 1 4, mkRat (-1) 4] = some [] :=
  (detector_per_buffer_guarantees 7 2 2 48 [mkRat 1 4, mkRat (-1) 4]).2
    (by decide)

/-- Claim C6 (confirmed): the samples-per-millisecond derivation returns
exactly rate / 1000 for each of the three supported rates 16000, 32000 and
48000, and fails with UnsupportedSampleRate for every other rate, with no
fallback value. -/
theorem samples_per_ms_spec (R : Nat) :
    ((R = 16000 ∨ R = 32000 ∨ R = 48000) →
      input_samples_per_ms R = .ok (R / 1000)) ∧
    (¬(R = 16000 ∨ R = 32000 ∨ R = 48000) →
      input_samples_per_ms R = .error .UnsupportedSampleRate) := by
  constructor
  · rintro (rfl | rfl | rfl) <;> rfl
  · intro h
    push_neg at h
    obtain ⟨h1, h2, h3⟩ := h
    unfold input_samples_per_ms
    rw [if_neg h3, if_neg h2, if_neg h1]

/-- Witness for claim C6: 48000 maps to 48 and the unsupported rate 44100
fails. -/
theorem samples_per_ms_spec_witness :
    input_samples_per_ms 48000 = .ok 48 ∧
    input_samples_per_ms 44100 = .error .UnsupportedSampleRate :=
  ⟨(samples_per_ms_spec 48000).1 (Or.inr (Or.inr rfl)),
   (samples_per_ms_spec 44100).2 (by decide)⟩

/-- Claim C7 (confirmed): startup validation fails with ConfigMismatch for
every pair of configs differing in channel count or sample rate, fails with
UnsupportedSampleRate for an equal pair whose shared rate is outside
16000, 32000, 48000, and succeeds on every equal pair with a supported
rate, returning the single shared config. It runs in main before either
stream is built. -/
theorem validate_spec (render capture : StreamConfig) :
    ((render.channels ≠ capture.channels ∨
        render.sampleRate ≠ capture.sampleRate) →
      validate render capture = .error .ConfigMismatch) ∧
    (render = capture →
      ¬(capture.sampleRate = 16000 ∨ capture.sampleRate = 32000 ∨
          capture.sampleRate = 48000) →
      validate render capture = .error .UnsupportedSampleRate) ∧
    (render = capture →
      (capture.sampleRate = 16000 ∨ capture.sampleRate = 32000 ∨
          capture.sampleRate = 48000) →
      validate render capture = .ok capture) := by
  refine ⟨?_, ?_, ?_⟩
  · intro hdiff
    have hne : render ≠ capture := by
      intro h
      subst h
      rcases hdiff with h | h <;> exact h rfl
    unfold validate
    rw [if_neg hne]
  · intro heq hrate
    subst heq
    unfold validate
    rw [if_pos rfl]
    push_neg at hrate
    obtain ⟨h1, h2, h3⟩ := hrate
    unfold input_samples_per_ms
    rw [if_neg h3, if_neg h2, if_neg h1]
  · intro heq hrate
    subst heq
    unfold validate
    rw [if_pos rfl]
    rcases hrate with h | h | h <;> rw [h] <;> rfl

/-- Concrete configs for the C7 witness: the one main hard-codes, one
differing in channel count, and one with an unsupported rate. -/
def mainCfg : StreamConfig := ⟨2, 48000, 128⟩

/-- A config differing from mainCfg in channel count only. -/
def monoCfg : StreamConfig := ⟨1, 48000, 128⟩

/-- A config with the unsupported rate 44100. -/
def cdCfg : StreamConfig := ⟨2, 44100, 128⟩

/-- Witness for claim C7: a channel-count mismatch, an unsupported shared
rate, and the successful hard-coded pair. -/
theorem validate_spec_witness :
    validate mainCfg monoCfg = .error .ConfigMismatch ∧
    validate cdCfg cdCfg = .error .UnsupportedSampleRate ∧
    validate mainCfg mainCfg = .ok mainCfg :=
  ⟨(validate_spec mainCfg monoCfg).1 (Or.inl (by decide)),
   (validate_spec cdCfg cdCfg).2.1 rfl (by decide),
   (validate_spec mainCfg mainCfg).2.2 rfl (Or.inr (Or.inr rfl))⟩

/-- Claim C8 (confirmed): across every interleaving of render and capture
callback invocations that completes without a panic, the shared
last-emission timestamp never decreases: starting from the session-start
value, the value after the trace is at least the starting value (and by
instantiating the trace at any prefix, at least every intermediate value). -/
theorem sharedClock_monotone (channels spms lastEmission final : Nat)
    (events : List CbEvent)
    (h : runClock channels spms lastEmission events = some final) :
    lastEmission ≤ final := by
  induction events generalizing lastEmission with
  | nil =>
    unfold runClock at h
    injection h with h
    exact h.le
  | cons e es ih =>
    unfold runClock at h
    rcases hs : stepClock channels spms lastEmission e with _ | next
    · rw [hs] at h
      exact Option.noConfusion h
    · rw [hs] at h
      exact le_trans (stepClock_mono channels spms lastEmission next e hs) (ih next h)

/-- Witness for claim C8: a render callback that emits two seconds into the
session, followed by a capture callback that observes the impulse, leaves
the timestamp at the emission time, no earlier than the start value 5. -/
theorem sharedClock_monotone_witness :
    runClock 2 48 5 [CbEvent.render 2000000000 [0],
      CbEvent.capture 2000000001 [1, 0]] = some 2000000000 ∧
    5 ≤ 2000000000 :=
  ⟨by decide,
   sharedClock_monotone 2 48 5 2000000000
     [CbEvent.render 2000000000 [0], CbEvent.capture 2000000001 [1, 0]]
     (by decide)⟩

/-- Claim C9 (confirmed): when at least k re-arm periods, k at least 2,
elapse between callbacks, the next render callback emits exactly one
impulse sample (slot 0, every other slot 0, so the buffer holds exactly one
sample equal to 1) and resets the timestamp to now; a subsequent callback
within one period of that emission emits silence, so no catch-up impulse for
the missed periods ever appears. -/
theorem scheduler_no_catchup (now lastEmission k now2 : Nat) (d d2 : ℚ)
    (rest rest2 : List ℚ) (hk : 2 ≤ k) (hnl : lastEmission ≤ now)
    (hstall : k * rearmPeriodNs ≤ now - lastEmission)
    (h12 : now ≤ now2) (hsoon : now2 - now ≤ rearmPeriodNs) :
    output_data_fn now lastEmission (d :: rest) =
      some ((1 : ℚ) :: rest.map (fun _ => 0), now) ∧
    ((1 : ℚ) :: rest.map (fun _ => (0 : ℚ))).count 1 = 1 ∧
    output_data_fn now2 now (d2 :: rest2) =
      some ((0 : ℚ) :: rest2.map (fun _ => 0), now) := by
  have h2 : 2 * rearmPeriodNs ≤ now - lastEmission :=
    le_trans (Nat.mul_le_mul_right rearmPeriodNs hk) hstall
  have hP : rearmPeriodNs < now - lastEmission := by
    have h0 : rearmPeriodNs < 2 * rearmPeriodNs := by
      unfold rearmPeriodNs
      omega
    omega
  refine ⟨?_, count_one_impulse rest, ?_⟩
  · rw [output_data_fn_cons, if_neg (not_lt.mpr hnl), if_pos hP]
  · rw [output_data_fn_cons, if_neg (not_lt.mpr h12), if_neg (not_lt.mpr hsoon)]

/-- Witness for claim C9: after a stall of exactly two periods a one-slot
buffer gets the impulse and the timestamp resets; five nanoseconds later the
next callback emits silence. -/
theorem scheduler_no_catchup_witness :
    output_data_fn 2000000000 0 [(0 : ℚ)] = some ([(1 : ℚ)], 2000000000) ∧
    ((1 : ℚ) :: List.map (fun _ => (0 : ℚ)) ([] : List ℚ)).count 1 = 1 ∧
    output_data_fn 2000000005 2000000000 [(0 : ℚ)] =
      some ([(0 : ℚ)], 2000000000) :=
  scheduler_no_catchup 2000000000 0 2 2000000005 0 0 [] []
    (by decide) (by decide) (by decide) (by decide) (by decide)

/-- Claim C10 (confirmed): the render callback writes slot 0 unconditionally,
so on a zero-length buffer it panics (out-of-bounds write, modelled as none)
in either branch, while on every nonempty buffer with a well-formed elapsed
time it completes; buffer length at least 1 is an unstated precondition. -/
theorem render_nonempty_precondition (now lastEmission : Nat) (data : List ℚ) :
    output_data_fn now lastEmission [] = none ∧
    (lastEmission ≤ now → data ≠ [] →
      (output_data_fn now lastEmission data).isSome = true) := by
  constructor
  · unfold output_data_fn
    by_cases hlt : now < lastEmission
    · rw [if_pos hlt]
    · rw [if_neg hlt]
  · intro hnl hne
    cases data with
    | nil => exact absurd rfl hne
    | cons d rest =>
      rw [output_data_fn_cons, if_neg (not_lt.mpr hnl)]
      by_cases hp : rearmPeriodNs < now - lastEmission
      · rw [if_pos hp]
        rfl
      · rw [if_neg hp]
        rfl

/-- Witness for claim C10: at a concrete time the empty buffer panics while
a one-slot buffer completes. -/
theorem render_nonempty_precondition_witness :
    output_data_fn 7 3 [] = none ∧
    (output_data_fn 7 3 [(2 : ℚ)]).isSome = true :=
  ⟨(render_nonempty_precondition 7 3 [(2 : ℚ)]).1,
   (render_nonempty_precondition 7 3 [(2 : ℚ)]).2 (by decide) (by decide)⟩
